import Mathlib

/-!
Shallow embedding of the eirini-persi-broker volume broker
(src/broker/broker.go and the config data model), together with proofs
about its lifecycle operations.

The broker is stateless: every operation re-derives state from the
resource store (the Kubernetes PersistentVolumeClaim collection in the
configured namespace).  The store is embedded as an explicit value
threaded through every operation: each operation takes the store and
returns the Go `(result, err)` pair — modelled as `Except` — together
with the store as it stands when the operation returns.
-/

namespace EiriniBroker

/-- A key/value map (Go `map[string]string`), embedded as an association
list.  A nil Go map and an empty Go map behave identically in every
operation of broker.go (lookup misses, `len` is 0), so both are `[]`. -/
abbrev KVMap := List (String × String)

/-- Go map lookup `m[k]` with its `ok` flag, as an `Option`. -/
def lookupKV (m : KVMap) (k : String) : Option String :=
  match m.find? (fun kv => kv.1 == k) with
  | some kv => some kv.2
  | none => none

/-- Go map assignment `m[k] = v`: replaces the value when the key is
present, otherwise adds the pair. -/
def insertKV (m : KVMap) (k v : String) : KVMap :=
  match m with
  | [] => [(k, v)]
  | kv :: rest => if kv.1 == k then (k, v) :: rest else kv :: insertKV rest k v

/-- Go `delete(m, k)`. -/
def eraseKV (m : KVMap) (k : String) : KVMap :=
  m.filter (fun kv => kv.1 != k)

/-- Decidable equality for the `(result, err)` pairs the operations
return, so that concrete runs can be checked by evaluation. -/
instance exceptDecEq {ε α : Type} [DecidableEq ε] [DecidableEq α] :
    DecidableEq (Except ε α) := fun x y =>
  match x, y with
  | .ok a, .ok b =>
      if h : a = b then .isTrue (by rw [h])
      else .isFalse (fun he => by cases he; exact h rfl)
  | .ok _, .error _ => .isFalse (fun he => by cases he)
  | .error _, .ok _ => .isFalse (fun he => by cases he)
  | .error e, .error f =>
      if h : e = f then .isTrue (by rw [h])
      else .isFalse (fun he => by cases he; exact h rfl)

/-- config.Plan (config/config.go).  `storageClass` is the `*string`
storage class handed verbatim to the created claim spec (broker.go 153),
so it is an `Option`; `defaultSize` and `defaultAccessMode` are the plan
defaults read at broker.go 123 and 131 (zero value `""` when unset). -/
structure Plan where
  id : String
  name : String
  description : String
  storageClass : Option String
  free : Bool
  defaultSize : String
  defaultAccessMode : String
deriving DecidableEq, Repr

/-- config.ServiceConfiguration: the static catalog. -/
structure ServiceConfiguration where
  serviceName : String := ""
  serviceID : String := ""
  plans : List Plan := []
  description : String := ""
  longDescription : String := ""
  providerDisplayName : String := ""
  documentationURL : String := ""
  supportURL : String := ""
  displayName : String := ""
  iconImage : String := ""
deriving DecidableEq, Repr

/-- config.Config (the parts the broker core reads). -/
structure Config where
  serviceConfiguration : ServiceConfiguration
  namespaceName : String := ""
deriving DecidableEq, Repr

/-- A PersistentVolumeClaim as the broker reads and writes it: name,
labels, annotations, the claim spec's storage class, access modes and
requested storage quantity. -/
structure PVC where
  name : String
  labels : KVMap := []
  annotations : KVMap := []
  storageClassName : Option String := none
  accessModes : List String := []
  storage : String := ""
deriving DecidableEq, Repr

/-- The PVC collection of the configured namespace: the resource store
every operation queries fresh (spec §4.3, broker.go `instanceExists`). -/
structure Store where
  pvcs : List PVC
deriving DecidableEq, Repr

/-- Errors of the store client (k8s.io API errors as the broker
distinguishes them: not-found versus already-exists). -/
inductive StoreErr where
  | notFound
  | alreadyExists
deriving DecidableEq, Repr

/-- `Get` by name: first claim with the requested name. -/
def Store.get (s : Store) (n : String) : Option PVC :=
  s.pvcs.find? (fun p => p.name == n)

/-- `Create`: fails with AlreadyExists when a claim of that name is
present (the store's create-if-absent semantics, spec §5). -/
def Store.create (s : Store) (pvc : PVC) : Except StoreErr Store :=
  match Store.get s pvc.name with
  | some _ => .error .alreadyExists
  | none => .ok ⟨s.pvcs ++ [pvc]⟩

/-- `Update`: replaces the claim of the same name, NotFound otherwise. -/
def Store.update (s : Store) (pvc : PVC) : Except StoreErr Store :=
  match Store.get s pvc.name with
  | none => .error .notFound
  | some _ => .ok ⟨s.pvcs.map (fun q => if q.name == pvc.name then pvc else q)⟩

/-- `Delete` by name, NotFound when absent. -/
def Store.delete (s : Store) (n : String) : Except StoreErr Store :=
  match Store.get s n with
  | none => .error .notFound
  | some _ => .ok ⟨s.pvcs.filter (fun q => q.name != n)⟩

/-- The broker's error values: the brokerapi sentinel errors plus the
errors broker.go builds itself (`errors.New` / `errors.Wrap`). -/
inductive BrokerErr where
  /-- errors.New("plan_id required"), broker.go 87 -/
  | planIDRequired
  /-- errors.New("plan_id not recognized"), broker.go 99 -/
  | planNotRecognized
  /-- brokerapi.ErrInstanceAlreadyExists -/
  | instanceAlreadyExists
  /-- brokerapi.ErrInstanceDoesNotExist -/
  | instanceDoesNotExist
  /-- brokerapi.ErrBindingAlreadyExists -/
  | bindingAlreadyExists
  /-- brokerapi.ErrBindingDoesNotExist -/
  | bindingDoesNotExist
  /-- wrap of a json.Unmarshal failure on the user parameter blob -/
  | invalidParameters
  /-- errors.New("plan doesn't have a default size"), broker.go 126 -/
  | planHasNoDefaultSize
  /-- wrap of a resource.ParseQuantity failure, broker.go 139 -/
  | invalidQuantity
  /-- errors.New("pvc has a nil storage class"), broker.go 243 and 350 -/
  | nilStorageClass
  /-- a "label missing from pvc" error of GetInstance, broker.go 315/318 -/
  | missingLabel (label : String)
  /-- a wrapped store-client failure with its context message -/
  | storeError (context : String)
deriving DecidableEq, Repr

namespace Brokerapi

/-- brokerapi.ServicePlan as built by Services (broker.go 45–50).
`free` is the boolean observed by dereferencing the plan's `Free`
pointer once `Services` has returned. -/
structure ServicePlan where
  name : String
  description : String
  id : String
  free : Bool
deriving DecidableEq, Repr

/-- brokerapi.ServiceMetadata as built by Services (broker.go 61–68). -/
structure ServiceMetadata where
  displayName : String
  longDescription : String
  documentationUrl : String
  supportUrl : String
  imageUrl : String
  providerDisplayName : String
deriving DecidableEq, Repr

/-- brokerapi.Service as built by Services (broker.go 53–77). -/
structure Service where
  id : String
  name : String
  description : String
  bindable : Bool
  plans : List ServicePlan
  metadata : ServiceMetadata
  tags : List String
  requires : List String
deriving DecidableEq, Repr

/-- userConfiguration (broker.go 35–38): the JSON fields of the
Provision parameter blob; an absent field decodes to `""`. -/
structure UserConfiguration where
  size : String
  accessMode : String
deriving DecidableEq, Repr

/-- userMountConfiguration (broker.go 29–31): the JSON field of the
Bind parameter blob. -/
structure UserMountConfiguration where
  directory : String
deriving DecidableEq, Repr

/-- The opaque `RawParameters` blob of ProvisionDetails: empty, JSON
that fails to unmarshal, or JSON decoding to a userConfiguration. -/
inductive ProvisionRawParams where
  | empty
  | invalid
  | parsed (config : UserConfiguration)
deriving DecidableEq, Repr

/-- The opaque `RawParameters` blob of BindDetails. -/
inductive BindRawParams where
  | empty
  | invalid
  | parsed (config : UserMountConfiguration)
deriving DecidableEq, Repr

/-- brokerapi.ProvisionDetails (the fields broker.go reads). -/
structure ProvisionDetails where
  serviceID : String := ""
  planID : String := ""
  organizationGUID : String := ""
  spaceGUID : String := ""
  rawParameters : ProvisionRawParams := .empty
deriving DecidableEq, Repr

/-- brokerapi.ProvisionedServiceSpec (the fields broker.go sets). -/
structure ProvisionedServiceSpec where
  isAsync : Bool := false
  dashboardURL : String := ""
deriving DecidableEq, Repr

/-- brokerapi.DeprovisionDetails (unused by the broker beyond the
protocol contract, spec §4.5). -/
structure DeprovisionDetails where
  planID : String := ""
  serviceID : String := ""
deriving DecidableEq, Repr

/-- brokerapi.DeprovisionServiceSpec, returned at its zero value. -/
structure DeprovisionServiceSpec where
  isAsync : Bool := false
  operationData : String := ""
deriving DecidableEq, Repr

/-- brokerapi.BindDetails (the fields broker.go reads). -/
structure BindDetails where
  planID : String := ""
  serviceID : String := ""
  appGUID : String := ""
  rawParameters : BindRawParams := .empty
deriving DecidableEq, Repr

/-- brokerapi.VolumeMount as built at broker.go 250–260 and 354–364. -/
structure VolumeMount where
  driver : String
  containerDir : String
  mode : String
  deviceType : String
  /-- Device.VolumeId of the SharedDevice -/
  volumeId : String
deriving DecidableEq, Repr

/-- brokerapi.Binding (the fields broker.go sets at 247–260). -/
structure Binding where
  /-- the "volume_id" credential entry -/
  credentialsVolumeId : String := ""
  volumeMounts : List VolumeMount := []
deriving DecidableEq, Repr

/-- brokerapi.UnbindDetails (unused beyond the protocol contract). -/
structure UnbindDetails where
  planID : String := ""
  serviceID : String := ""
deriving DecidableEq, Repr

/-- brokerapi.UnbindSpec, returned at its zero value. -/
structure UnbindSpec where
  isAsync : Bool := false
  operationData : String := ""
deriving DecidableEq, Repr

/-- brokerapi.GetInstanceDetailsSpec (the fields broker.go sets). -/
structure GetInstanceDetailsSpec where
  serviceID : String := ""
  planID : String := ""
deriving DecidableEq, Repr

/-- brokerapi.GetBindingSpec (the field broker.go sets). -/
structure GetBindingSpec where
  volumeMounts : List VolumeMount := []
deriving DecidableEq, Repr

/-- brokerapi.UpdateDetails (never read by the broker). -/
structure UpdateDetails where
  serviceID : String := ""
  planID : String := ""
deriving DecidableEq, Repr

/-- brokerapi.UpdateServiceSpec, returned at its zero value. -/
structure UpdateServiceSpec where
  isAsync : Bool := false
  dashboardURL : String := ""
  operationData : String := ""
deriving DecidableEq, Repr

/-- brokerapi.PollDetails (never read by the broker). -/
structure PollDetails where
  serviceID : String := ""
  planID : String := ""
  operationData : String := ""
deriving DecidableEq, Repr

/-- brokerapi.LastOperation, returned at its zero value. -/
structure LastOperation where
  state : String := ""
  description : String := ""
deriving DecidableEq, Repr

end Brokerapi

/-- JSON decoding of the Provision parameter blob (broker.go 114–120):
an empty blob is skipped and leaves the zero-valued userConfiguration;
a malformed blob is a wrapped unmarshal error. -/
def decodeUserConfiguration :
    Brokerapi.ProvisionRawParams → Except BrokerErr Brokerapi.UserConfiguration
  | .empty => .ok { size := "", accessMode := "" }
  | .invalid => .error .invalidParameters
  | .parsed c => .ok c

/-- JSON decoding of the Bind parameter blob (broker.go 219–225). -/
def decodeUserMountConfiguration :
    Brokerapi.BindRawParams → Except BrokerErr Brokerapi.UserMountConfiguration
  | .empty => .ok { directory := "" }
  | .invalid => .error .invalidParameters
  | .parsed c => .ok c

/-- Whether a size string is a well-formed Kubernetes resource
quantity.  Models the external `resource.ParseQuantity` collaborator
(k8s.io/apimachinery, broker.go 137) on its common grammar: a non-empty
run of digits followed by one of the standard binary/SI exponent
letter groups. -/
def quantityWellFormed (s : String) : Bool :=
  let digits := s.toList.takeWhile (fun c => c.isDigit)
  let rest : String := ⟨s.toList.drop digits.length⟩
  digits.length != 0 &&
    ["", "Ki", "Mi", "Gi", "Ti", "Pi", "Ei",
     "n", "u", "m", "k", "M", "G", "T", "P", "E"].contains rest

/-- Models the external `resource.ParseQuantity` (broker.go 137): fails
on a malformed string, otherwise yields the parsed quantity (represented
by the size string itself, which is already in canonical form for the
grammar above). -/
def parseQuantity (s : String) : Option String :=
  if quantityWellFormed s then some s else none

/-- The annotation key naming a binding (broker.go 398–400). -/
def bindingAnnotationKey (bindingID : String) : String :=
  "eirini-broker-binding-" ++ bindingID

/-- instanceExists (broker.go 384–396): fetch the claim by name;
not-found is the normal absence result, not an error.  The model store's
`get` is total, so the `(bool, *pvc, error)` triple collapses to the
`Option`. -/
def instanceExists (s : Store) (instanceID : String) : Option PVC :=
  Store.get s instanceID

/-- The plan-resolution loop of Provision (broker.go 90–96): the first
catalog plan whose ID matches. -/
def planFor (cfg : Config) (planID : String) : Option Plan :=
  cfg.serviceConfiguration.plans.find? (fun p => p.id == planID)

/-- The plan list built by Services (broker.go 42–51).  Go 1.14 `range`
reuses a single loop variable `plan`, and `Free: &plan.Free` stores a
pointer to a field of that one variable into every entry; after the loop
the variable holds the last catalog plan, so dereferencing any entry's
`Free` pointer once `Services` has returned observes the LAST plan's
`Free` value.  `free` below is that observed value. -/
def servicesPlanList (plans : List Plan) : List Brokerapi.ServicePlan :=
  match plans.getLast? with
  | none => []
  | some last =>
      plans.map (fun p =>
        { name := p.name, description := p.description, id := p.id,
          free := last.free })

/-- Services (broker.go 41–79): one service built from the static
catalog configuration. -/
def Services (cfg : Config) : List Brokerapi.Service :=
  [{ id := cfg.serviceConfiguration.serviceID,
     name := cfg.serviceConfiguration.serviceName,
     description := cfg.serviceConfiguration.description,
     bindable := true,
     plans := servicesPlanList cfg.serviceConfiguration.plans,
     metadata :=
       { displayName := cfg.serviceConfiguration.displayName,
         longDescription := cfg.serviceConfiguration.longDescription,
         documentationUrl := cfg.serviceConfiguration.documentationURL,
         supportUrl := cfg.serviceConfiguration.supportURL,
         imageUrl := "data:image/png;base64," ++ cfg.serviceConfiguration.iconImage,
         providerDisplayName := cfg.serviceConfiguration.providerDisplayName },
     tags := ["eirini", "kubernetes", "storage"],
     requires := ["volume_mount"] }]

/-- Provision (broker.go 82–174): reject an empty plan id, resolve the
plan, check existence, decode user parameters, resolve effective size
and access mode, parse the quantity, create the claim. -/
def Provision (cfg : Config) (s : Store) (instanceID : String)
    (serviceDetails : Brokerapi.ProvisionDetails) (asyncAllowed : Bool) :
    Except BrokerErr Brokerapi.ProvisionedServiceSpec × Store :=
  if serviceDetails.planID = "" then (.error .planIDRequired, s)
  else
    match planFor cfg serviceDetails.planID with
    | none => (.error .planNotRecognized, s)
    | some plan =>
      match instanceExists s instanceID with
      | some _ => (.error .instanceAlreadyExists, s)
      | none =>
        match decodeUserConfiguration serviceDetails.rawParameters with
        | .error e => (.error e, s)
        | .ok userConfig =>
          let size := if userConfig.size = "" then plan.defaultSize else userConfig.size
          if size = "" then (.error .planHasNoDefaultSize, s)
          else
            let accessMode :=
              if userConfig.accessMode = "" then plan.defaultAccessMode
              else userConfig.accessMode
            let accessMode := if accessMode = "" then "ReadWriteMany" else accessMode
            match parseQuantity size with
            | none => (.error .invalidQuantity, s)
            | some quantity =>
              match Store.create s
                { name := instanceID,
                  labels :=
                    [("service-id", serviceDetails.serviceID),
                     ("plan-id", serviceDetails.planID),
                     ("organization-id", serviceDetails.organizationGUID),
                     ("space-id", serviceDetails.spaceGUID)],
                  annotations := [],
                  storageClassName := plan.storageClass,
                  accessModes := [accessMode],
                  storage := quantity } with
              | .error _ => (.error (.storeError "error provisioning"), s)
              | .ok s1 => (.ok { isAsync := false, dashboardURL := "" }, s1)

/-- Deprovision (broker.go 177–197): existence check, then delete. -/
def Deprovision (s : Store) (instanceID : String)
    (details : Brokerapi.DeprovisionDetails) (asyncAllowed : Bool) :
    Except BrokerErr Brokerapi.DeprovisionServiceSpec × Store :=
  match instanceExists s instanceID with
  | none => (.error .instanceDoesNotExist, s)
  | some _ =>
    match Store.delete s instanceID with
    | .error _ =>
        (.error (.storeError "error deleting persistent volume claim for deprovisioning"), s)
    | .ok s1 => (.ok {}, s1)

/-- The default mount directory of Bind (broker.go 226–229). -/
def resolveContainerDir (dir bindingID : String) : String :=
  if dir = "" then "/var/vcap/data/" ++ bindingID else dir

/-- The claim object after the annotation assignment of broker.go
232–235: `pvc.Annotations[bindingIDAnnotation(bindingID)] = containerDir`
(the nil-map initialization is a no-op in the list embedding). -/
def bindAnnotated (pvc : PVC) (bindingID containerDir : String) : PVC :=
  { pvc with annotations :=
      insertKV pvc.annotations (bindingAnnotationKey bindingID) containerDir }

/-- The tail of Bind from the annotation write on (broker.go 231–261):
persist the added annotation, THEN check the storage class (an error
there is returned after the update has already been persisted), then
build the mount descriptor from the updated claim object. -/
def bindUpdate (s : Store) (pvc : PVC) (bindingID containerDir : String) :
    Except BrokerErr Brokerapi.Binding × Store :=
  match Store.update s (bindAnnotated pvc bindingID containerDir) with
  | .error _ =>
      (.error (.storeError "error updating persistent volume claim annotations for binding"), s)
  | .ok s1 =>
    match pvc.storageClassName with
    | none => (.error .nilStorageClass, s1)
    | some storageClassName =>
      (.ok { credentialsVolumeId := pvc.name,
             volumeMounts :=
               [{ driver := storageClassName,
                  containerDir := containerDir,
                  mode := "rw",
                  deviceType := "shared",
                  volumeId := pvc.name }] }, s1)

/-- Bind (broker.go 200–262): existence check, binding-conflict check,
parameter decode, then the annotation write and descriptor build. -/
def Bind (s : Store) (instanceID bindingID : String)
    (details : Brokerapi.BindDetails) (asyncAllowed : Bool) :
    Except BrokerErr Brokerapi.Binding × Store :=
  match instanceExists s instanceID with
  | none => (.error .instanceDoesNotExist, s)
  | some pvc =>
    match lookupKV pvc.annotations (bindingAnnotationKey bindingID) with
    | some _ => (.error .bindingAlreadyExists, s)
    | none =>
      match decodeUserMountConfiguration details.rawParameters with
      | .error e => (.error e, s)
      | .ok userMount =>
        bindUpdate s pvc bindingID (resolveContainerDir userMount.directory bindingID)

/-- Unbind (broker.go 265–295): existence check, binding checks, remove
the annotation and persist. -/
def Unbind (s : Store) (instanceID bindingID : String)
    (details : Brokerapi.UnbindDetails) (asyncAllowed : Bool) :
    Except BrokerErr Brokerapi.UnbindSpec × Store :=
  match instanceExists s instanceID with
  | none => (.error .instanceDoesNotExist, s)
  | some pvc =>
    if pvc.annotations.length = 0 then (.error .bindingDoesNotExist, s)
    else
      match lookupKV pvc.annotations (bindingAnnotationKey bindingID) with
      | none => (.error .bindingDoesNotExist, s)
      | some _ =>
        match Store.update s
          { pvc with annotations := eraseKV pvc.annotations (bindingAnnotationKey bindingID) } with
        | .error _ =>
            (.error (.storeError "error updating persistent volume claim annotations for unbinding"), s)
        | .ok s1 => (.ok {}, s1)

/-- GetInstance (broker.go 298–322): reconstruct the instance spec from
the claim's labels. -/
def GetInstance (s : Store) (instanceID : String) :
    Except BrokerErr Brokerapi.GetInstanceDetailsSpec × Store :=
  match instanceExists s instanceID with
  | none => (.error .instanceDoesNotExist, s)
  | some pvc =>
    match lookupKV pvc.labels "plan-id" with
    | none => (.error (.missingLabel "plan-id"), s)
    | some planID =>
      match lookupKV pvc.labels "service-id" with
      | none => (.error (.missingLabel "service-id"), s)
      | some serviceID => (.ok { serviceID := serviceID, planID := planID }, s)

/-- GetBinding (broker.go 325–367): reconstruct the mount descriptor
from the binding annotation. -/
def GetBinding (s : Store) (instanceID bindingID : String) :
    Except BrokerErr Brokerapi.GetBindingSpec × Store :=
  match instanceExists s instanceID with
  | none => (.error .instanceDoesNotExist, s)
  | some pvc =>
    if pvc.annotations.length = 0 then (.error .bindingDoesNotExist, s)
    else
      match lookupKV pvc.annotations (bindingAnnotationKey bindingID) with
      | none => (.error .bindingDoesNotExist, s)
      | some containerDir =>
        match pvc.storageClassName with
        | none => (.error .nilStorageClass, s)
        | some storageClassName =>
          (.ok { volumeMounts :=
                   [{ driver := storageClassName,
                      containerDir := containerDir,
                      mode := "rw",
                      deviceType := "shared",
                      volumeId := pvc.name }] }, s)

/-- LastBindingOperation (broker.go 370–372): a noop returning the
zero-valued LastOperation; the store is neither read nor written. -/
def LastBindingOperation (s : Store) (instanceID bindingID : String)
    (details : Brokerapi.PollDetails) :
    Except BrokerErr Brokerapi.LastOperation × Store :=
  (.ok {}, s)

/-- LastOperation (broker.go 375–377): a noop returning the zero-valued
LastOperation; the store is neither read nor written. -/
def LastOperation (s : Store) (instanceID : String)
    (details : Brokerapi.PollDetails) :
    Except BrokerErr Brokerapi.LastOperation × Store :=
  (.ok {}, s)

/-- Update (broker.go 380–382): a noop returning the zero-valued
UpdateServiceSpec; the store is neither read nor written. -/
def Update (s : Store) (instanceID : String)
    (details : Brokerapi.UpdateDetails) (asyncAllowed : Bool) :
    Except BrokerErr Brokerapi.UpdateServiceSpec × Store :=
  (.ok {}, s)

end EiriniBroker

namespace EiriniBroker

/-! ### Helper lemmas about the store and map embedding -/

theorem name_of_get {s : Store} {n : String} {pvc : PVC}
    (h : Store.get s n = some pvc) : pvc.name = n := by
  unfold Store.get at h
  have hb := List.find?_some h
  simpa using hb

theorem find?_append_right {α : Type} (p : α → Bool) (l1 l2 : List α)
    (h : l1.find? p = none) : (l1 ++ l2).find? p = l2.find? p := by
  rw [List.find?_append, h]
  simp

theorem get_create {s : Store} {pvc : PVC} {s' : Store}
    (h : Store.create s pvc = .ok s') : Store.get s' pvc.name = some pvc := by
  unfold Store.create at h
  cases hg : Store.get s pvc.name with
  | some q => rw [hg] at h; simp at h
  | none =>
    rw [hg] at h
    cases h
    unfold Store.get at hg ⊢
    rw [find?_append_right _ _ _ hg]
    simp [List.find?]

theorem find?_map_set (n : String) (pvc' : PVC) (hn : pvc'.name = n)
    (l : List PVC)
    (h : (l.find? (fun p => p.name == n)).isSome = true) :
    (l.map (fun q => if q.name == n then pvc' else q)).find?
      (fun p => p.name == n) = some pvc' := by
  induction l with
  | nil => simp [List.find?] at h
  | cons q l ih =>
    by_cases hq : q.name = n
    · have hq' : (q.name == n) = true := by simp [hq]
      simp only [List.map_cons, hq', if_true]
      rw [List.find?_cons_of_pos _ (by simp [hn])]
    · have hq' : (q.name == n) = false := by simp [hq]
      rw [List.find?_cons_of_neg _ (by simp [hq])] at h
      simp only [List.map_cons, hq', Bool.false_eq_true, if_false]
      rw [List.find?_cons_of_neg _ (by simp [hq])]
      exact ih h

theorem get_update {s : Store} {pvc' : PVC} {s' : Store}
    (h : Store.update s pvc' = .ok s') : Store.get s' pvc'.name = some pvc' := by
  unfold Store.update at h
  cases hg : Store.get s pvc'.name with
  | none => rw [hg] at h; simp at h
  | some q =>
    rw [hg] at h
    cases h
    unfold Store.get at hg ⊢
    exact find?_map_set pvc'.name pvc' rfl s.pvcs (by rw [hg]; rfl)

theorem lookup_insert_self (m : KVMap) (k v : String) :
    lookupKV (insertKV m k v) k = some v := by
  induction m with
  | nil => simp [insertKV, lookupKV, List.find?]
  | cons kv rest ih =>
    by_cases h : kv.1 = k
    · simp [insertKV, lookupKV, List.find?, h]
    · have h' : (kv.1 == k) = false := by simp [h]
      simp only [insertKV, h', if_neg (by simpa using h'), Bool.false_eq_true]
      simp only [lookupKV, List.find?, h'] at ih ⊢
      exact ih

theorem insertKV_length_ne_zero (m : KVMap) (k v : String) :
    (insertKV m k v).length ≠ 0 := by
  cases m with
  | nil => simp [insertKV]
  | cons kv rest =>
    by_cases h : (kv.1 == k) = true <;> simp [insertKV, h]

/-! ### Concrete fixtures: the spec §8 scenario catalog and traces -/

/-- The plan of the spec's concrete scenario. -/
def planP1 : Plan :=
  { id := "p1", name := "p1", description := "",
    storageClass := some "gold", free := true,
    defaultSize := "1Gi", defaultAccessMode := "" }

/-- A catalog configuration holding exactly `planP1`. -/
def cfgP1 : Config :=
  { serviceConfiguration :=
      { serviceID := "svc-1", serviceName := "eirini-persi", plans := [planP1] },
    namespaceName := "eirini" }

/-- The empty resource store. -/
def emptyStore : Store := ⟨[]⟩

/-- Provision details for the scenario: plan "p1", no parameters. -/
def detailsP1 : Brokerapi.ProvisionDetails :=
  { serviceID := "svc-1", planID := "p1",
    organizationGUID := "org-1", spaceGUID := "space-1",
    rawParameters := .empty }

/-- Bind details carrying the parameter blob decoding to dir "/mnt". -/
def bindMnt : Brokerapi.BindDetails :=
  { rawParameters := .parsed { directory := "/mnt" } }

/-- Store after Provision("i1","p1") on the empty store. -/
def storeAfterProvision : Store :=
  (Provision cfgP1 emptyStore "i1" detailsP1 false).2

/-- Store after the subsequent Bind("i1","b1",dir="/mnt"). -/
def storeAfterBind : Store :=
  (Bind storeAfterProvision "i1" "b1" bindMnt false).2

/-- Store after the subsequent Unbind("i1","b1"). -/
def storeAfterUnbind : Store :=
  (Unbind storeAfterBind "i1" "b1" {} false).2

/-- The claim created by the scenario Provision. -/
def pvcI1 : PVC :=
  { name := "i1",
    labels := [("service-id","svc-1"),("plan-id","p1"),
               ("organization-id","org-1"),("space-id","space-1")],
    annotations := [],
    storageClassName := some "gold",
    accessModes := ["ReadWriteMany"],
    storage := "1Gi" }

/-- The same claim with the scenario binding annotation present. -/
def pvcI1bound : PVC :=
  { pvcI1 with annotations := [("eirini-broker-binding-b1", "/mnt")] }

/-- The binding returned by the scenario Bind. -/
def bindingB1 : Brokerapi.Binding :=
  { credentialsVolumeId := "i1",
    volumeMounts := [{ driver := "gold", containerDir := "/mnt",
                       mode := "rw", deviceType := "shared", volumeId := "i1" }] }

end EiriniBroker

namespace EiriniBroker

/-! ### Claim theorems -/

/-- C1: For every instance identifier whose backing resource already
exists in the store, calling Provision again with that identifier and a
valid, non-empty plan identifier returns the InstanceAlreadyExists error
and performs no create or update on the store: the store — and hence the
existing resource — is returned unchanged (broker.go 102–111). -/
theorem C1_provision_existing_instance_conflict
    (cfg : Config) (s : Store) (instanceID : String)
    (d : Brokerapi.ProvisionDetails) (a : Bool) (plan : Plan) (pvc : PVC)
    (hne : d.planID ≠ "")
    (hplan : planFor cfg d.planID = some plan)
    (hex : instanceExists s instanceID = some pvc) :
    Provision cfg s instanceID d a = (.error .instanceAlreadyExists, s) := by
  simp [Provision, hne, hplan, hex]

/-- C1 witness: re-provisioning "i1" on the store that already holds it
returns InstanceAlreadyExists and the unchanged store. -/
theorem C1_witness :
    detailsP1.planID ≠ "" ∧
    planFor cfgP1 detailsP1.planID = some planP1 ∧
    instanceExists storeAfterProvision "i1" = some pvcI1 ∧
    Provision cfgP1 storeAfterProvision "i1" detailsP1 true =
      (.error .instanceAlreadyExists, storeAfterProvision) :=
  ⟨by decide, by decide, by decide,
   C1_provision_existing_instance_conflict cfgP1 storeAfterProvision "i1"
     detailsP1 true planP1 pvcI1 (by decide) (by decide) (by decide)⟩

/-- C2: For every instance identifier whose backing resource is absent
from the store, each of Deprovision, Bind, Unbind, GetInstance and
GetBinding returns the InstanceDoesNotExist error and leaves the store
unchanged (broker.go 180–188, 203–211, 268–276, 301–309, 328–336). -/
theorem C2_absent_instance_errors
    (s : Store) (instanceID bindingID : String)
    (dd : Brokerapi.DeprovisionDetails) (bd : Brokerapi.BindDetails)
    (ud : Brokerapi.UnbindDetails) (a : Bool)
    (habs : instanceExists s instanceID = none) :
    Deprovision s instanceID dd a = (.error .instanceDoesNotExist, s) ∧
    Bind s instanceID bindingID bd a = (.error .instanceDoesNotExist, s) ∧
    Unbind s instanceID bindingID ud a = (.error .instanceDoesNotExist, s) ∧
    GetInstance s instanceID = (.error .instanceDoesNotExist, s) ∧
    GetBinding s instanceID bindingID = (.error .instanceDoesNotExist, s) := by
  refine ⟨?_, ?_, ?_, ?_, ?_⟩ <;>
    simp [Deprovision, Bind, Unbind, GetInstance, GetBinding, habs]

/-- C2 witness: a never-provisioned identifier on the scenario store. -/
theorem C2_witness :
    instanceExists storeAfterProvision "nope" = none ∧
    Deprovision storeAfterProvision "nope" {} true =
      (.error .instanceDoesNotExist, storeAfterProvision) ∧
    GetBinding storeAfterProvision "nope" "b1" =
      (.error .instanceDoesNotExist, storeAfterProvision) :=
  ⟨by decide,
   (C2_absent_instance_errors storeAfterProvision "nope" "b1" {} {} {} true
     (by decide)).1,
   (C2_absent_instance_errors storeAfterProvision "nope" "b1" {} {} {} true
     (by decide)).2.2.2.2⟩

/-- C7: For an existing instance, Bind of a binding identifier whose
annotation is already present returns BindingAlreadyExists without
modifying the resource, and Unbind of a binding identifier whose
annotation is absent (including when the resource has no annotations at
all) returns BindingDoesNotExist without modifying the resource: in both
cases the store is returned unchanged (broker.go 213–216, 278–285). -/
theorem C7_binding_conflicts
    (s : Store) (instanceID bindingID : String) (pvc : PVC) (v : String)
    (bd : Brokerapi.BindDetails) (ud : Brokerapi.UnbindDetails) (a : Bool)
    (hex : instanceExists s instanceID = some pvc) :
    (lookupKV pvc.annotations (bindingAnnotationKey bindingID) = some v →
      Bind s instanceID bindingID bd a = (.error .bindingAlreadyExists, s)) ∧
    (lookupKV pvc.annotations (bindingAnnotationKey bindingID) = none →
      Unbind s instanceID bindingID ud a = (.error .bindingDoesNotExist, s)) := by
  constructor
  · intro h
    simp [Bind, hex, h]
  · intro h
    by_cases hlen : pvc.annotations.length = 0
    · simp [Unbind, hex, hlen]
    · simp [Unbind, hex, hlen, h]

/-- C7 witness: re-binding "b1" on the bound scenario store conflicts;
unbinding the never-bound "b2" reports a missing binding. -/
theorem C7_witness :
    Bind storeAfterBind "i1" "b1" bindMnt true =
      (.error .bindingAlreadyExists, storeAfterBind) ∧
    Unbind storeAfterBind "i1" "b2" {} true =
      (.error .bindingDoesNotExist, storeAfterBind) :=
  ⟨(C7_binding_conflicts storeAfterBind "i1" "b1" pvcI1bound "/mnt" bindMnt {}
      true (by decide)).1 (by decide),
   (C7_binding_conflicts storeAfterBind "i1" "b2" pvcI1bound "" bindMnt {}
      true (by decide)).2 (by decide)⟩

/-- C8: Provision with an empty plan identifier fails with
PlanIDRequired, and Provision with a non-empty plan identifier matching
no catalog plan fails with PlanNotRecognized; in both cases the store is
returned unchanged, so no resource is created (broker.go 85–100). -/
theorem C8_plan_resolution_errors
    (cfg : Config) (s : Store) (instanceID : String)
    (d : Brokerapi.ProvisionDetails) (a : Bool) :
    (d.planID = "" →
      Provision cfg s instanceID d a = (.error .planIDRequired, s)) ∧
    (d.planID ≠ "" → planFor cfg d.planID = none →
      Provision cfg s instanceID d a = (.error .planNotRecognized, s)) := by
  constructor
  · intro h
    simp [Provision, h]
  · intro h hn
    simp [Provision, h, hn]

/-- C8 witness: an empty plan id and an unknown plan id against the
single-plan scenario catalog. -/
theorem C8_witness :
    Provision cfgP1 emptyStore "i1" { planID := "" } true =
      (.error .planIDRequired, emptyStore) ∧
    Provision cfgP1 emptyStore "i1" { planID := "zz" } true =
      (.error .planNotRecognized, emptyStore) :=
  ⟨(C8_plan_resolution_errors cfgP1 emptyStore "i1" { planID := "" } true).1
     (by decide),
   (C8_plan_resolution_errors cfgP1 emptyStore "i1" { planID := "zz" } true).2
     (by decide) (by decide)⟩

/-- C9: For every input, Update, LastOperation and LastBindingOperation
return the zero-valued result and no error, and the store is passed
through untouched — the functions are constant in the store, performing
no read or write against it (broker.go 369–382). -/
theorem C9_noop_operations
    (s : Store) (instanceID bindingID : String)
    (ud : Brokerapi.UpdateDetails) (pd : Brokerapi.PollDetails) (a : Bool) :
    Update s instanceID ud a = (.ok {}, s) ∧
    LastOperation s instanceID pd = (.ok {}, s) ∧
    LastBindingOperation s instanceID bindingID pd = (.ok {}, s) :=
  ⟨rfl, rfl, rfl⟩

end EiriniBroker

namespace EiriniBroker

/-- A plan whose free flag is true, for the two-plan catalog. -/
def planFreeTrue : Plan :=
  { id := "pA", name := "planA", description := "",
    storageClass := some "sc", free := true,
    defaultSize := "1Gi", defaultAccessMode := "" }

/-- A plan whose free flag is false, for the two-plan catalog. -/
def planFreeFalse : Plan :=
  { id := "pB", name := "planB", description := "",
    storageClass := some "sc", free := false,
    defaultSize := "1Gi", defaultAccessMode := "" }

/-- A catalog with two plans whose free flags differ. -/
def cfgTwoPlans : Config :=
  { serviceConfiguration :=
      { serviceID := "svc-2", serviceName := "two-plan-service",
        plans := [planFreeTrue, planFreeFalse] } }

/-- C4: evaluation of Services at the failing input.  The configured
plans carry free flags [true, false], but the listing reports
[false, false]: in Go 1.14, `Free: &plan.Free` (broker.go 48) stores
into every listed plan a pointer to the one `range` loop variable, which
after the loop holds the LAST plan's free value, so the listed free-tier
boolean is not a by-value copy of the corresponding configured plan's
flag.  The empty catalog still yields one service with zero plans. -/
theorem C4_free_flag_aliasing_eval :
    cfgTwoPlans.serviceConfiguration.plans.map (fun p => p.free) = [true, false] ∧
    (Services cfgTwoPlans).map (fun svc => svc.plans.map (fun p => p.free)) =
      [[false, false]] ∧
    (Services { serviceConfiguration := { plans := [] } }).map
      (fun svc => svc.plans) = [[]] := by
  decide

/-- C6 counterexample: in the concrete scenario (catalog with the single
plan id "p1", class "gold", default size "1Gi"), after the successful
Bind("i1","b1",dir="/mnt") the resource carries NO annotation keyed
"binding-b1" — the code keys the annotation
"eirini-broker-binding-b1" (broker.go 398–400) — so the claim as stated
is false at this input. -/
theorem C6_counterexample :
    (Bind storeAfterProvision "i1" "b1" bindMnt false).1 = .ok bindingB1 ∧
    (Store.get storeAfterBind "i1").map
      (fun p => lookupKV p.annotations "binding-b1") = some none := by
  decide

/-- C6 amended: with the single plan (id "p1", class "gold", default
size "1Gi"): Provision("i1","p1") with no parameters creates a resource
named "i1" with capacity 1Gi, storage class "gold" and access mode
"ReadWriteMany"; Bind("i1","b1",dir="/mnt") adds the annotation
"eirini-broker-binding-b1" with value "/mnt" and returns a mount
descriptor with driver "gold", container path "/mnt" and device
identifier "i1"; Unbind("i1","b1") removes that annotation;
Deprovision("i1") deletes the resource. -/
theorem C6_amended_scenario :
    (Provision cfgP1 emptyStore "i1" detailsP1 false).1 = .ok {} ∧
    Store.get storeAfterProvision "i1" = some pvcI1 ∧
    pvcI1.storage = "1Gi" ∧
    pvcI1.storageClassName = some "gold" ∧
    pvcI1.accessModes = ["ReadWriteMany"] ∧
    (Bind storeAfterProvision "i1" "b1" bindMnt false).1 = .ok bindingB1 ∧
    bindingB1.volumeMounts =
      [{ driver := "gold", containerDir := "/mnt", mode := "rw",
         deviceType := "shared", volumeId := "i1" }] ∧
    Store.get storeAfterBind "i1" = some pvcI1bound ∧
    lookupKV pvcI1bound.annotations "eirini-broker-binding-b1" = some "/mnt" ∧
    (Unbind storeAfterBind "i1" "b1" {} false).1 = .ok {} ∧
    Store.get storeAfterUnbind "i1" = some pvcI1 ∧
    Deprovision storeAfterUnbind "i1" {} false = (.ok {}, emptyStore) := by
  decide

end EiriniBroker

namespace EiriniBroker

theorem get_append_new (s : Store) (pvc : PVC)
    (h : Store.get s pvc.name = none) :
    Store.get ⟨s.pvcs ++ [pvc]⟩ pvc.name = some pvc := by
  unfold Store.get at h ⊢
  rw [find?_append_right _ _ _ h]
  simp [List.find?]

/-- C3: In Provision (past the plan and existence checks, with decoded
user parameters), the effective size is the user-supplied size if
non-empty, otherwise the plan's default size, and if both are empty
Provision fails with PlanHasNoDefaultSize; the effective access mode is
the user-supplied mode if non-empty, otherwise the plan's default access
mode, otherwise the hardcoded fallback "ReadWriteMany" — the created
resource carries exactly these resolved values (broker.go 113–140). -/
theorem C3_effective_size_and_access_mode
    (cfg : Config) (s : Store) (instanceID : String)
    (d : Brokerapi.ProvisionDetails) (a : Bool) (plan : Plan)
    (uc : Brokerapi.UserConfiguration)
    (hne : d.planID ≠ "")
    (hplan : planFor cfg d.planID = some plan)
    (habs : instanceExists s instanceID = none)
    (hdec : decodeUserConfiguration d.rawParameters = .ok uc) :
    (uc.size = "" → plan.defaultSize = "" →
      Provision cfg s instanceID d a = (.error .planHasNoDefaultSize, s)) ∧
    ((if uc.size = "" then plan.defaultSize else uc.size) ≠ "" →
      quantityWellFormed (if uc.size = "" then plan.defaultSize else uc.size) = true →
      (Provision cfg s instanceID d a).1 =
        .ok { isAsync := false, dashboardURL := "" } ∧
      ∃ pvc, Store.get (Provision cfg s instanceID d a).2 instanceID = some pvc ∧
        pvc.storage = (if uc.size = "" then plan.defaultSize else uc.size) ∧
        pvc.accessModes =
          [if uc.accessMode = "" then
             (if plan.defaultAccessMode = "" then "ReadWriteMany"
              else plan.defaultAccessMode)
           else uc.accessMode]) := by
  constructor
  · intro h1 h2
    simp [Provision, hne, hplan, habs, hdec, h1, h2]
  · intro hsz hq
    have habs' : Store.get s instanceID = none := habs
    have hrun : Provision cfg s instanceID d a =
        (.ok { isAsync := false, dashboardURL := "" },
         ⟨s.pvcs ++
           [{ name := instanceID,
              labels := [("service-id", d.serviceID), ("plan-id", d.planID),
                         ("organization-id", d.organizationGUID),
                         ("space-id", d.spaceGUID)],
              annotations := [],
              storageClassName := plan.storageClass,
              accessModes :=
                [if (if uc.accessMode = "" then plan.defaultAccessMode
                     else uc.accessMode) = "" then "ReadWriteMany"
                 else (if uc.accessMode = "" then plan.defaultAccessMode
                       else uc.accessMode)],
              storage := if uc.size = "" then plan.defaultSize else uc.size }]⟩) := by
      simp [Provision, hne, hplan, habs, hdec, hsz, parseQuantity, hq,
            Store.create, habs']
    refine ⟨by rw [hrun], ?_⟩
    rw [hrun]
    refine ⟨_, get_append_new s _ habs', rfl, ?_⟩
    by_cases hm : uc.accessMode = "" <;> by_cases hdm : plan.defaultAccessMode = "" <;>
      simp [hm, hdm]

/-- C3 witness: the scenario plan has default size "1Gi" and no default
access mode; with no user parameters, the created resource has storage
"1Gi" and access mode "ReadWriteMany". -/
theorem C3_witness :
    planFor cfgP1 detailsP1.planID = some planP1 ∧
    instanceExists emptyStore "i1" = none ∧
    (∃ pvc, Store.get (Provision cfgP1 emptyStore "i1" detailsP1 false).2 "i1" =
        some pvc ∧
      pvc.storage = "1Gi" ∧ pvc.accessModes = ["ReadWriteMany"]) :=
  ⟨by decide, by decide, by
    have h := (C3_effective_size_and_access_mode cfgP1 emptyStore "i1" detailsP1
      false planP1 { size := "", accessMode := "" } (by decide) (by decide)
      (by decide) (by decide)).2 (by decide) (by decide)
    simpa [planP1] using h.2⟩

end EiriniBroker

namespace EiriniBroker

theorem bindAnnotated_name (pvc : PVC) (bindingID containerDir : String) :
    (bindAnnotated pvc bindingID containerDir).name = pvc.name := rfl

theorem bindAnnotated_annotations (pvc : PVC) (bindingID containerDir : String) :
    (bindAnnotated pvc bindingID containerDir).annotations =
      insertKV pvc.annotations (bindingAnnotationKey bindingID) containerDir := rfl

theorem bindAnnotated_storageClassName (pvc : PVC) (bindingID containerDir : String) :
    (bindAnnotated pvc bindingID containerDir).storageClassName =
      pvc.storageClassName := rfl

/-- C10: If the instance exists, the binding annotation is absent, and
the resource's declared storage class is missing (nil), then Bind
returns the InvalidResourceState error ("pvc has a nil storage class")
only after the annotation update has already been persisted to the
store: the returned store carries the resource with the binding
annotation present even though Bind reports an error — Bind is not
atomic on this error path (broker.go 230–244). -/
theorem C10_bind_error_after_persist
    (s : Store) (instanceID bindingID : String) (pvc : PVC)
    (bd : Brokerapi.BindDetails) (um : Brokerapi.UserMountConfiguration)
    (a : Bool)
    (hex : instanceExists s instanceID = some pvc)
    (hno : lookupKV pvc.annotations (bindingAnnotationKey bindingID) = none)
    (hsc : pvc.storageClassName = none)
    (hdec : decodeUserMountConfiguration bd.rawParameters = .ok um) :
    ∃ s', Bind s instanceID bindingID bd a = (.error .nilStorageClass, s') ∧
      ∃ q, instanceExists s' instanceID = some q ∧
        lookupKV q.annotations (bindingAnnotationKey bindingID) =
          some (resolveContainerDir um.directory bindingID) := by
  have hname : pvc.name = instanceID := name_of_get hex
  have hget : Store.get s pvc.name = some pvc := by rw [hname]; exact hex
  have hup : Store.update s
      (bindAnnotated pvc bindingID (resolveContainerDir um.directory bindingID)) =
      .ok ⟨s.pvcs.map (fun q => if q.name == pvc.name then
        bindAnnotated pvc bindingID (resolveContainerDir um.directory bindingID)
        else q)⟩ := by
    unfold Store.update
    rw [bindAnnotated_name, hget]
  have hbind : Bind s instanceID bindingID bd a =
      (.error .nilStorageClass,
       ⟨s.pvcs.map (fun q => if q.name == pvc.name then
         bindAnnotated pvc bindingID (resolveContainerDir um.directory bindingID)
         else q)⟩) := by
    simp only [Bind, hex, hno, hdec, bindUpdate, hup, hsc]
  refine ⟨_, hbind,
    bindAnnotated pvc bindingID (resolveContainerDir um.directory bindingID),
    ?_, ?_⟩
  · rw [← hname]
    exact get_update hup
  · rw [bindAnnotated_annotations]
    exact lookup_insert_self _ _ _

/-- A claim whose declared storage class is missing. -/
def pvcNoClass : PVC :=
  { name := "i2", labels := [], annotations := [],
    storageClassName := none, accessModes := ["ReadWriteMany"],
    storage := "1Gi" }

/-- A store holding only `pvcNoClass`. -/
def storeNoClass : Store := ⟨[pvcNoClass]⟩

/-- C10 witness: binding "b9" on the class-less claim returns the
nil-storage-class error, yet the annotation is persisted. -/
theorem C10_witness :
    instanceExists storeNoClass "i2" = some pvcNoClass ∧
    pvcNoClass.storageClassName = none ∧
    (∃ s', Bind storeNoClass "i2" "b9" bindMnt true =
        (.error .nilStorageClass, s') ∧
      ∃ q, instanceExists s' "i2" = some q ∧
        lookupKV q.annotations (bindingAnnotationKey "b9") =
          some (resolveContainerDir "/mnt" "b9")) :=
  ⟨by decide, by decide,
   C10_bind_error_after_persist storeNoClass "i2" "b9" pvcNoClass bindMnt
     { directory := "/mnt" } true (by decide) (by decide) (by decide) (by decide)⟩

end EiriniBroker

namespace EiriniBroker

/-- C5: After Provision of an instance followed by a successful Bind of
a binding identifier on it, GetBinding with the same instance and
binding identifiers succeeds and returns a mount descriptor equal to the
one returned by Bind (same driver, container path, mode, device type and
device identifier), the store being untouched by the read (broker.go
241–261 and 338–366). -/
theorem C5_bind_get_binding_round_trip
    (cfg : Config) (s : Store) (instanceID : String)
    (d : Brokerapi.ProvisionDetails) (a a' : Bool)
    (ps : Brokerapi.ProvisionedServiceSpec) (s1 : Store)
    (bindingID : String) (bd : Brokerapi.BindDetails)
    (b : Brokerapi.Binding) (s2 : Store)
    (hp : Provision cfg s instanceID d a = (.ok ps, s1))
    (hb : Bind s1 instanceID bindingID bd a' = (.ok b, s2)) :
    GetBinding s2 instanceID bindingID =
      (.ok { volumeMounts := b.volumeMounts }, s2) := by
  unfold Bind at hb
  split at hb
  next habs => simp at hb
  next pvc hex =>
    split at hb
    next v hl => simp at hb
    next hl =>
      split at hb
      next e hd => simp at hb
      next um hd =>
        unfold bindUpdate at hb
        split at hb
        next e hu => simp at hb
        next s2' hu =>
          split at hb
          next hsc => simp at hb
          next sc hsc =>
            simp only [Prod.mk.injEq, Except.ok.injEq] at hb
            obtain ⟨hbval, hs2⟩ := hb
            subst hs2
            subst hbval
            have hname : pvc.name = instanceID := name_of_get hex
            have hex2 : instanceExists s2' instanceID =
                some (bindAnnotated pvc bindingID
                  (resolveContainerDir um.directory bindingID)) := by
              have hg := get_update hu
              rw [bindAnnotated_name, hname] at hg
              exact hg
            have hlen : (insertKV pvc.annotations (bindingAnnotationKey bindingID)
                (resolveContainerDir um.directory bindingID)).length ≠ 0 :=
              insertKV_length_ne_zero _ _ _
            simp only [GetBinding, hex2, bindAnnotated_annotations,
              bindAnnotated_storageClassName, bindAnnotated_name,
              lookup_insert_self, hsc, hlen, if_false]

/-- C5 witness: the concrete Provision→Bind→GetBinding chain of the
scenario returns the same mount descriptor from Bind and GetBinding. -/
theorem C5_witness :
    Provision cfgP1 emptyStore "i1" detailsP1 false = (.ok {}, storeAfterProvision) ∧
    Bind storeAfterProvision "i1" "b1" bindMnt false = (.ok bindingB1, storeAfterBind) ∧
    GetBinding storeAfterBind "i1" "b1" =
      (.ok { volumeMounts := bindingB1.volumeMounts }, storeAfterBind) :=
  ⟨by decide, by decide,
   C5_bind_get_binding_round_trip cfgP1 emptyStore "i1" detailsP1 false false
     {} storeAfterProvision "b1" bindMnt bindingB1 storeAfterBind
     (by decide) (by decide)⟩

end EiriniBroker
